import Mathlib

/-!
Verification of the python-slimta building blocks described in the
specification: the SMTP reply-line model (`slimta.smtp.reply.Reply`,
modelled from the spec, as only its test suite is among the sources), the
bounded asynchronous PTR lookup (`slimta.util.ptrlookup.PtrLookup`), the
bounce-message builder (`slimta.bounce.Bounce`) and the dictionary-backed
authentication factory (`slimta.util.build_auth_from_dict`).
-/

namespace Slimta

/-! ## The reply-line model (StatusCode / EnhancedStatusCode / ReplyLine) -/

def isDigitCh (c : Char) : Bool := '0' ≤ c && c ≤ '9'

/-- Modelled from the spec: `StatusCode` validation.  The class
`slimta.smtp.reply.Reply` is not among the given sources (only its tests
are); per the spec a non-absent code must match `^[0-9]{3}$`. -/
def isValidCode (s : String) : Bool :=
  s.data.length == 3 && s.data.all isDigitCh

/-- Modelled from the spec: the internal state of an `EnhancedStatusCode`
is one of `Auto` (no override), `Override subject detail` (each a run of
one or more digits), or `Suppressed`. -/
inductive EscState where
  | auto : EscState
  | override (subject detail : String) : EscState
  | suppressed : EscState
deriving DecidableEq, Repr

/-- Modelled from the spec: a `ReplyLine` aggregates a command tag, a
`StatusCode` (`code`), an `EnhancedStatusCode` state (`esc`), a base
message text and the leading-blank-line flag (`newline_first` in the
tests). -/
structure ReplyLine where
  command : Option String
  code : Option String
  esc : EscState
  baseMessage : Option String
  newline_first : Bool
deriving DecidableEq, Repr

/-- The empty, unpopulated reply (no code, auto esc, no message). -/
def emptyReply (command : Option String) : ReplyLine :=
  { command := command
    code := none
    esc := .auto
    baseMessage := none
    newline_first := false }

/-- Modelled from the spec: `setCode` accepts `None` or a 3-digit string;
non-conforming strings fail with a validation error and the prior state is
retained (the `Except.error` branch produces no new state). -/
def setCode (r : ReplyLine) (value : Option String) : Except String ReplyLine :=
  match value with
  | none => .ok { r with code := none }
  | some s =>
      if isValidCode s then .ok { r with code := some s }
      else .error "reply code must be a 3-digit string"

/-- Python assignment semantics for the `code` setter: on a validation
error the object keeps its prior state; the `Bool` records whether an
error was raised. -/
def setCodeChecked (r : ReplyLine) (value : Option String) : ReplyLine × Bool :=
  match setCode r value with
  | .ok r1 => (r1, false)
  | .error _ => (r, true)

/-- The value assigned to the enhanced-status-code property: `None`
(reset to auto), the `False` sentinel (suppress), or a string. -/
inductive EscInput where
  | reset : EscInput
  | suppress : EscInput
  | str (s : String) : EscInput

/-- Modelled from the spec: parse a full enhanced-status-code string of
shape `digit.digits.digits`; yields the subject and detail digit groups
(the class digit is discarded, re-derived from the code at read time). -/
def parseEscString (s : String) : Option (String × String) :=
  match s.data with
  | c :: '.' :: rest =>
      if isDigitCh c then
        let subj := rest.takeWhile isDigitCh
        match rest.dropWhile isDigitCh with
        | '.' :: rest2 =>
            let det := rest2.takeWhile isDigitCh
            if subj ≠ [] ∧ det ≠ [] ∧ rest2.dropWhile isDigitCh = [] then
              some (String.mk subj, String.mk det)
            else none
        | _ => none
      else none
  | _ => none

/-- Modelled from the spec: `setEnhancedStatusCode` maps `None` to `Auto`,
the `False` sentinel to `Suppressed`, a string matching
`digit.digits.digits` to `Override` (accepted and stored even if the
owning code is absent or of a different class), and rejects anything
else, leaving the state unchanged. -/
def setEnhancedStatusCode (r : ReplyLine) (value : EscInput) :
    Except String ReplyLine :=
  match value with
  | .reset => .ok { r with esc := .auto }
  | .suppress => .ok { r with esc := .suppressed }
  | .str s =>
      match parseEscString s with
      | some (subj, det) => .ok { r with esc := .override subj det }
      | none => .error "invalid enhanced status code"

/-- The class digit of a status code: its first character. -/
def classDigit (code : String) : String := String.mk (code.data.take 1)

/-- Modelled from the spec: the effective enhanced status code.  `None`
when the owning code is absent or the state is `Suppressed`; otherwise
`Auto` reads as `<classDigit>.0.0` and `Override subject detail` reads as
`<classDigit>.<subject>.<detail>`, the class digit always taken from the
current code. -/
def enhancedStatusCode (r : ReplyLine) : Option String :=
  match r.code with
  | none => none
  | some c =>
      match r.esc with
      | .auto => some (classDigit c ++ ".0.0")
      | .override subj det => some (classDigit c ++ "." ++ subj ++ "." ++ det)
      | .suppressed => none

/-- Modelled from the spec: split a message that begins with an
enhanced-status-code-shaped `digit.digits.digits` followed by whitespace
into the subject and detail digit groups and the remainder. -/
def splitEscMessage (s : String) : Option (String × String × String) :=
  match s.data with
  | c :: '.' :: rest =>
      if isDigitCh c then
        let subj := rest.takeWhile isDigitCh
        match rest.dropWhile isDigitCh with
        | '.' :: rest2 =>
            let det := rest2.takeWhile isDigitCh
            match rest2.dropWhile isDigitCh with
            | w :: tail =>
                if subj ≠ [] ∧ det ≠ [] ∧ w.isWhitespace then
                  some (String.mk subj, String.mk det,
                    String.mk ((w :: tail).dropWhile Char.isWhitespace))
                else none
            | [] => none
        | _ => none
      else none
  | _ => none

/-- Modelled from the spec: `setMessage`.  `None` clears the base message
and resets the esc state to `Auto`; a text with an esc-shaped prefix is
split (digit groups become an `Override`, remainder becomes the base
message); otherwise the text is stored verbatim and `esc` is untouched. -/
def setMessage (r : ReplyLine) (text : Option String) : ReplyLine :=
  match text with
  | none => { r with baseMessage := none, esc := .auto }
  | some t =>
      match splitEscMessage t with
      | some (subj, det, remainder) =>
          { r with esc := .override subj det, baseMessage := some remainder }
      | none => { r with baseMessage := some t }

/-- Modelled from the spec: the effective display message — `None` when
the base message is absent, otherwise the effective enhanced status code
(when non-absent) prefixed to the base message. -/
def message (r : ReplyLine) : Option String :=
  match r.baseMessage with
  | none => none
  | some base =>
      match enhancedStatusCode r with
      | some e => some (e ++ " " ++ base)
      | none => some base

/-- Modelled from the spec: construction with optional `(code, message)`
runs the two setters on an empty reply. -/
def mkReply (c m cmd : Option String) : Except String ReplyLine := do
  let r1 ← setCode (emptyReply cmd) c
  pure (setMessage r1 m)

/-- Modelled from the spec: `copy(other)` overwrites `code`, `esc` (full
internal state) and the base message from `other`, preserving this
instance's own `command`. -/
def copy (r other : ReplyLine) : ReplyLine :=
  { r with
    code := other.code
    esc := other.esc
    baseMessage := other.baseMessage }

/-- Modelled from the spec: `send` writes `"<code> <message>\r\n"`, with a
leading `"\r\n"` first when the leading-blank-line flag is set; an
unpopulated code or message is a precondition violation (`none`). -/
def send (r : ReplyLine) : Option String :=
  match r.code, message r with
  | some c, some m =>
      some ((if r.newline_first then "\r\n" else "") ++ c ++ " " ++ m ++ "\r\n")
  | _, _ => none

/-! ## PtrLookup (src/slimta/util/ptrlookup.py) -/

/-- Python exceptions relevant to `PtrLookup._run`. -/
inductive PyExc where
  | dnsSyntaxError : PyExc
  | nxdomain : PyExc
  | greenletExit : PyExc
  | indexError : PyExc
  | other (msg : String) : PyExc
deriving DecidableEq, Repr

/-- The environment `_run` executes in: what
`dns.reversename.from_address` does for the lookup's IP, and what
`dns_resolver.query` then does for the reverse name. -/
structure DnsWorld where
  from_address : Except PyExc String
  query : Except PyExc (List String)

/-- Python `answers[0]` — raises `IndexError` on an empty answer list. -/
def firstAnswer (answers : List String) : Except PyExc String :=
  match answers with
  | [] => .error .indexError
  | a :: _ => .ok a

/-- The body of the outer `try` in `PtrLookup._run`: compute the reverse
name, query it (`except NXDOMAIN: answers = []`), and return
`str(answers[0])` (`except IndexError: pass` falls through to the
implicit `return None`). -/
def runBody (w : DnsWorld) : Except PyExc (Option String) := do
  let _ptraddr ← w.from_address
  let answers ←
    match w.query with
    | .error .nxdomain => .ok ([] : List String)
    | r => r
  match firstAnswer answers with
  | .ok a => .ok (some a)
  | .error .indexError => .ok none
  | .error e => .error e

/-- `PtrLookup._run` with its outer `except` clauses: `DnsSyntaxError`
and `GreenletExit` pass silently; any other `Exception` is logged via
`logging.log_exception`.  The `Bool` records whether the logger ran. -/
def ptrRun (w : DnsWorld) : Except PyExc (Option String × Bool) :=
  match runBody w with
  | .ok v => .ok (v, false)
  | .error .dnsSyntaxError => .ok (none, false)
  | .error .greenletExit => .ok (none, false)
  | .error .nxdomain => .ok (none, true)
  | .error .indexError => .ok (none, true)
  | .error (.other _) => .ok (none, true)

/-- The state of the greenthread spawned by `start()`: either still
running (it will produce `value` at absolute time `completesAt`) or
already dead with its cached return value. -/
inductive ThreadState where
  | running (completesAt : ℤ) (value : Option String) : ThreadState
  | dead (cached : Option String) : ThreadState
deriving DecidableEq, Repr

/-- A started `PtrLookup`: the queried IP, the `start_time` recorded by
`start()`, and the spawned thread.  Time is modelled as exact integer
ticks. -/
structure PtrLookup where
  ip : String
  start_time : ℤ
  thread : ThreadState
deriving DecidableEq, Repr

/-- The outcome of one `finish` call: the value returned to the caller,
the lookup afterwards, and the absolute time at which `finish` returns
(so `returnTime - now` is how long the call blocked). -/
structure FinishResult where
  result : Option String
  lookup : PtrLookup
  returnTime : ℤ
deriving DecidableEq, Repr

/-- `PtrLookup.finish`: with `runtime = none` it blocks until the thread
completes; with `runtime = some d` it waits at most
`remaining = max 0 (d - elapsed)` where `elapsed = now - start_time`.  A
thread that is already dead yields its cached value immediately (a dead
`thread.wait()` does not yield to the hub, so even a zero timeout cannot
fire).  If the wait expires before completion, the `except
eventlet.Timeout` branch calls `thread.kill()` — `_run` catches the
`GreenletExit`, so the thread dies caching `none` — and the initial
`result = None` is returned without further blocking. -/
def finish (pl : PtrLookup) (now : ℤ) (runtime : Option ℤ) : FinishResult :=
  match pl.thread with
  | .dead v => ⟨v, { pl with thread := .dead v }, now⟩
  | .running tc v =>
      match runtime with
      | none => ⟨v, { pl with thread := .dead v }, max now tc⟩
      | some d =>
          let elapsed := now - pl.start_time
          let remaining := max 0 (d - elapsed)
          if tc ≤ now + remaining then
            ⟨v, { pl with thread := .dead v }, max now tc⟩
          else
            ⟨none, { pl with thread := .dead none }, now + remaining⟩

/-! ## Bounce (src/slimta/bounce.py) -/

/-- The fields of the original failed message's envelope that
`Bounce._build_message` reads: the sender, the recipients list, and the
two components returned by `envelope.flatten()`. -/
structure Envelope where
  sender : String
  recipients : List String
  headerData : String
  messageData : String

/-- Python `str.format` applied to a possibly-`None` attribute value. -/
def formatOpt (v : Option String) : String :=
  match v with
  | none => "None"
  | some s => s

/-- The substitution table built by `Bounce._get_substitution_table`. -/
structure SubTable where
  boundary : String
  sender : String
  recipients : String
  client_name : String
  client_ip : String
  dest_host : String
  dest_port : String
  protocol : String
  content_type : String
  code : String
  message : String

/-- `Bounce.recipient_join`. -/
def recipient_join : String := "\r\n- "

/-- `Bounce._get_substitution_table`: reads `reply.code` and
`reply.message` and the envelope's sender/recipients; `u` stands for the
random `uuid.uuid4().hex`. -/
def get_substitution_table (env : Envelope) (reply : ReplyLine)
    (headers_only : Bool) (u : String) : SubTable :=
  { boundary := "boundary_=" ++ u
    sender := env.sender
    recipients := String.intercalate recipient_join env.recipients
    client_name := "unknown"
    client_ip := "unknown"
    dest_host := "unknown"
    dest_port := "unknown"
    protocol := "SMTP"
    content_type := if headers_only then "text/rfc822-headers"
      else "message/rfc822"
    code := formatOpt reply.code
    message := formatOpt (message reply) }

/-- `Bounce.default_header_template` rendered with a substitution table
(the `re.sub` in the source has already normalized every line ending to
`"\r\n"`). -/
def header_template (t : SubTable) : String :=
  "From: MAILER-DAEMON\r\nTo: " ++ t.sender ++
  "\r\nSubject: Undelivered Mail Returned to Sender\r\n" ++
  "Auto-Submitted: auto-replied\r\nMIME-Version: 1.0\r\n" ++
  "Content-Type: multipart/report; report-type=delivery-status;\r\n" ++
  "    boundary=\"" ++ t.boundary ++
  "\"\r\nContent-Transfer-Encoding: 7bit\r\n\r\n" ++
  "This is a multi-part message in MIME format.\r\n\r\n--" ++ t.boundary ++
  "\r\nContent-Type: text/plain\r\n\r\nDelivery failed for:\r\n- " ++
  t.recipients ++ "\r\n\r\nDestination host responded:\r\n" ++
  t.code ++ " " ++ t.message ++ "\r\n\r\n--" ++ t.boundary ++
  "\r\nContent-Type: message/delivery-status\r\n\r\nRemote-MTA: dns; " ++
  t.client_name ++ " [" ++ t.client_ip ++ "]\r\nDiagnostic-Code: smtp; " ++
  t.code ++ " " ++ t.message ++ "\r\n\r\n--" ++ t.boundary ++
  "\r\nContent-Type: " ++ t.content_type ++ "\r\n\r\n"

/-- `Bounce.default_footer_template` rendered with a substitution
table. -/
def footer_template (t : SubTable) : String :=
  "\r\n--" ++ t.boundary ++ "--\r\n"

/-- `Bounce._build_message`: renders the header template, the flattened
original headers (both passed through `xmlcharref_encode`, modelled by
the parameter `enc`), the raw message data unless `headers_only`, and the
footer template.  The second component is the reply object after
construction: the source only ever reads `reply.code` and
`reply.message`, so the reply is returned unchanged. -/
def build_message (env : Envelope) (reply : ReplyLine) (headers_only : Bool)
    (u : String) (enc : String → String) : String × ReplyLine :=
  let sub_table := get_substitution_table env reply headers_only u
  let payload :=
    enc (header_template sub_table) ++ enc env.headerData ++
    (if headers_only then "" else env.messageData) ++
    enc (footer_template sub_table)
  (payload, reply)

/-! ## build_auth_from_dict (src/slimta/util/__init__.py) -/

/-- The `CredentialsInvalidError` raised by the generated verifier. -/
inductive AuthError where
  | credentialsInvalid : AuthError
deriving DecidableEq, Repr

/-- The generated `CustomAuth` sub-class of `Auth`: its `verify_secret`
method and, unless `only_verify` was set, its `get_secret` method
(`CustomAuth.get_secret = None` otherwise). -/
structure CustomAuth where
  verify_secret : String → String → Except AuthError String
  get_secret : Option (String → Except AuthError (String × String))

/-- The username both methods act on:
`authcid.lower() if lower_case else authcid`. -/
def authUsername (lower_case : Bool) (authcid : String) : String :=
  if lower_case then authcid.toLower else authcid

/-- `slimta.util.build_auth_from_dict`: the dictionary is modelled as a
partial map (`none` models a `KeyError`).  `verify_secret` asserts
`dict[username] == secret`, turning `KeyError` and `AssertionError` into
`CredentialsInvalidError`; `get_secret` returns
`(dict[username], username)` or raises `CredentialsInvalidError` on
`KeyError`. -/
def build_auth_from_dict (d : String → Option String)
    (lower_case only_verify : Bool) : CustomAuth :=
  { verify_secret := fun authcid secret =>
      let username := authUsername lower_case authcid
      match d username with
      | none => .error .credentialsInvalid
      | some stored =>
          if stored = secret then .ok username
          else .error .credentialsInvalid
    get_secret :=
      if only_verify then none
      else some (fun authcid =>
        let username := authUsername lower_case authcid
        match d username with
        | none => .error .credentialsInvalid
        | some stored => .ok (stored, username)) }

/-! ## Sanity anchors: the model replays the reply test suite -/

theorem mkReply_ok_state : mkReply (some "250") (some "Ok") none =
    .ok { command := none
          code := some "250"
          esc := .auto
          baseMessage := some "Ok"
          newline_first := false } := rfl

theorem mkReply_message_kept : (mkReply (some "250") (some "2.1.0 Ok") none).map
    message = .ok (some "2.1.0 Ok") := rfl

/-! ## The claims -/

/-- C1: for a lookup started at `t0` whose background work is still
unresolved when the wait expires, `finish d` called at `t0 + x` blocks
for exactly `max 0 (d - x)` — which is `d - x` when `x < d` and `0`
(immediate return) when `x ≥ d` — then kills the background thread (it
is left dead, not leaked, and the kill adds no further blocking) and
returns `none`. -/
theorem C1_finish_budget (ip : String) (t0 x d tc : ℤ) (v : Option String)
    (hun : t0 + x + max 0 (d - x) < tc) :
    finish ⟨ip, t0, .running tc v⟩ (t0 + x) (some d) =
      ⟨none, ⟨ip, t0, .dead none⟩, t0 + x + max 0 (d - x)⟩
  ∧ (x < d → t0 + x + max 0 (d - x) = (t0 + x) + (d - x))
  ∧ (d ≤ x → t0 + x + max 0 (d - x) = t0 + x) := by
  refine ⟨?_, fun h => by omega, fun h => by omega⟩
  simp only [finish]
  rw [show t0 + x - t0 = x by ring]
  rw [if_neg (by omega)]

theorem C1_finish_budget_witness :
    (finish ⟨"1.2.3.4", 0, .running 100 (some "example.com")⟩ (0 + 1)
        (some 3) =
      ⟨none, ⟨"1.2.3.4", 0, .dead none⟩, 0 + 1 + max 0 (3 - 1)⟩)
  ∧ ((1 : ℤ) < 3 → (0 : ℤ) + 1 + max 0 (3 - 1) = (0 + 1) + (3 - 1))
  ∧ ((3 : ℤ) ≤ 1 → (0 : ℤ) + 1 + max 0 (3 - 1) = 0 + 1) :=
  C1_finish_budget "1.2.3.4" 0 1 3 100 (some "example.com") (by decide)

/-- C2: `_run` never surfaces a raised exception: a syntactically
invalid key (`DnsSyntaxError`), an `NXDOMAIN` outcome, and an empty
answer set all yield `none` without logging; a non-empty answer set
yields its first answer; any other failure is absorbed and merely
logged. -/
theorem C2_run_never_raises (w : DnsWorld) :
    (∃ p, ptrRun w = .ok p)
  ∧ (w.from_address = .error .dnsSyntaxError → ptrRun w = .ok (none, false))
  ∧ (∀ a, w.from_address = .ok a → w.query = .error .nxdomain →
      ptrRun w = .ok (none, false))
  ∧ (∀ a, w.from_address = .ok a → w.query = .ok [] →
      ptrRun w = .ok (none, false))
  ∧ (∀ a h rest, w.from_address = .ok a → w.query = .ok (h :: rest) →
      ptrRun w = .ok (some h, false))
  ∧ (∀ a m, w.from_address = .ok a → w.query = .error (.other m) →
      ptrRun w = .ok (none, true)) := by
  obtain ⟨fa, q⟩ := w
  refine ⟨?_, fun h => ?_, fun a h1 h2 => ?_, fun a h1 h2 => ?_,
    fun a hd rest h1 h2 => ?_, fun a m h1 h2 => ?_⟩
  · cases fa with
    | error e => cases e <;> exact ⟨_, rfl⟩
    | ok a =>
        cases q with
        | ok l => cases l <;> exact ⟨_, rfl⟩
        | error e => cases e <;> exact ⟨_, rfl⟩
  · cases h; rfl
  · cases h1; cases h2; rfl
  · cases h1; cases h2; rfl
  · cases h1; cases h2; rfl
  · cases h1; cases h2; rfl

theorem C2_run_never_raises_witness :
    ptrRun ⟨.ok "4.3.2.1.in-addr.arpa.", .error .nxdomain⟩ =
      .ok (none, false) :=
  (C2_run_never_raises ⟨.ok "4.3.2.1.in-addr.arpa.", .error .nxdomain⟩).2.2.1
    "4.3.2.1.in-addr.arpa." rfl rfl

/-- C3: after any first `finish` call has resolved (by completion or by
timeout-and-kill), every subsequent `finish` call — at any later time
and with any runtime argument — returns the same cached outcome, leaves
the lookup unchanged, and returns at once (no re-waiting, re-killing or
re-invocation). -/
theorem C3_finish_idem (pl : PtrLookup) (now now2 : ℤ) (rt rt2 : Option ℤ) :
    finish (finish pl now rt).lookup now2 rt2 =
      ⟨(finish pl now rt).result, (finish pl now rt).lookup, now2⟩ := by
  obtain ⟨ip, t0, th⟩ := pl
  cases th with
  | dead c => cases rt <;> simp [finish]
  | running tc v =>
      cases rt with
      | none => simp [finish]
      | some d =>
          by_cases h : tc ≤ now + max 0 (d - (now - t0)) <;>
            simp [finish, h]

/-- C4: a stored override's class component is re-synchronized to the
owning code's current class digit on every read: with override subject
`s` and detail `t` and a code whose first digit is `k`, the enhanced
status code reads as `k.s.t`. -/
theorem C4_esc_class_resync (r : ReplyLine) (s t : String) (k : Char)
    (rest : List Char) (he : r.esc = .override s t)
    (hc : r.code = some (String.mk (k :: rest))) :
    enhancedStatusCode r = some (String.mk [k] ++ "." ++ s ++ "." ++ t) := by
  simp [enhancedStatusCode, hc, he, classDigit]

theorem C4_esc_class_resync_witness :
    enhancedStatusCode { command := none
                         code := some "550"
                         esc := .override "3" "4"
                         baseMessage := some "Stuff"
                         newline_first := false } = some "5.3.4"
  ∧ mkReply (some "550") (some "2.3.4 Stuff") none =
      .ok { command := none
            code := some "550"
            esc := .override "3" "4"
            baseMessage := some "Stuff"
            newline_first := false } :=
  ⟨C4_esc_class_resync _ "3" "4" '5' ['5', '0'] rfl rfl, rfl⟩

/-- C5: an override assigned while the code is absent is accepted and
retained but latent — the enhanced status code reads as `none` — and
after a valid code is subsequently set, the stored subject and detail
become visible under the new code's class digit. -/
theorem C5_latent_override (r0 : ReplyLine) (u s t c : String) (k : Char)
    (rest : List Char) (hc : r0.code = none)
    (hp : parseEscString u = some (s, t)) (hv : isValidCode c = true)
    (hk : c.data = k :: rest) :
    ∃ r1, setEnhancedStatusCode r0 (.str u) = .ok r1
      ∧ r1.esc = .override s t
      ∧ enhancedStatusCode r1 = none
      ∧ ∃ r2, setCode r1 (some c) = .ok r2
        ∧ enhancedStatusCode r2 =
            some (String.mk [k] ++ "." ++ s ++ "." ++ t) := by
  refine ⟨{ r0 with esc := .override s t }, ?_, rfl, ?_,
    { r0 with esc := .override s t, code := some c }, ?_, ?_⟩
  · simp [setEnhancedStatusCode, hp]
  · simp [enhancedStatusCode, hc]
  · simp [setCode, hv]
  · simp [enhancedStatusCode, classDigit, hk]

theorem C5_latent_override_witness :
    ∃ r1, setEnhancedStatusCode (emptyReply none) (.str "2.3.4") = .ok r1
      ∧ r1.esc = .override "3" "4"
      ∧ enhancedStatusCode r1 = none
      ∧ ∃ r2, setCode r1 (some "250") = .ok r2
        ∧ enhancedStatusCode r2 = some "2.3.4" :=
  C5_latent_override (emptyReply none) "2.3.4" "3" "4" "250" '2' ['5', '0']
    rfl rfl rfl rfl

/-- C6: `send` on a reply constructed with code `"250"` and message
`"Ok"` and no explicit enhanced status code writes exactly
`"250 2.0.0 Ok\r\n"`; with the leading-blank-line flag set it writes
exactly `"\r\n250 2.0.0 Ok\r\n"`. -/
theorem C6_send_wire :
    (mkReply (some "250") (some "Ok") none).map send =
      .ok (some "250 2.0.0 Ok\r\n")
  ∧ (mkReply (some "250") (some "Ok") none).map
      (fun r => send { r with newline_first := true }) =
      .ok (some "\r\n250 2.0.0 Ok\r\n") :=
  ⟨rfl, rfl⟩

/-- C7: setting a valid 3-digit code stores it and reading returns it;
setting a non-conforming string fails and leaves the previous state
untouched; the setter fails exactly when the value is neither `none` nor
a valid 3-digit string. -/
theorem C7_setCode_validation (r : ReplyLine) (c : String) :
    (isValidCode c = true →
      setCode r (some c) = .ok { r with code := some c }
      ∧ ({ r with code := some c } : ReplyLine).code = some c)
  ∧ (isValidCode c = false → setCodeChecked r (some c) = (r, true))
  ∧ ((setCode r (some c)).isOk = false ↔ isValidCode c = false)
  ∧ (setCode r none).isOk = true := by
  by_cases h : isValidCode c = true
  · refine ⟨fun _ => ⟨?_, rfl⟩, fun h2 => ?_, ?_, rfl⟩
    · simp [setCode, h]
    · rw [h] at h2; cases h2
    · simp [setCode, h, Except.isOk, Except.toBool]
  · have h3 : isValidCode c = false := by simpa using h
    refine ⟨fun h2 => ?_, fun _ => ?_, ?_, rfl⟩
    · rw [h2] at h3; cases h3
    · simp [setCodeChecked, setCode, h3]
    · simp [setCode, h3, Except.isOk, Except.toBool]

theorem C7_setCode_validation_witness :
    (setCode (emptyReply none) (some "100") =
        .ok { emptyReply none with code := some "100" }
      ∧ ({ emptyReply none with code := some "100" } : ReplyLine).code =
        some "100")
  ∧ setCodeChecked (emptyReply none) (some "asdf") = (emptyReply none, true) :=
  ⟨(C7_setCode_validation (emptyReply none) "100").1 rfl,
   (C7_setCode_validation (emptyReply none) "asdf").2.1 rfl⟩

/-- C8: `copy` makes the target's code, full esc state, base message —
hence also its effective enhanced status code and display message —
equal to the source's, while the target's own command is unchanged. -/
theorem C8_copy_frame (r other : ReplyLine) :
    (copy r other).code = other.code
  ∧ (copy r other).esc = other.esc
  ∧ (copy r other).baseMessage = other.baseMessage
  ∧ enhancedStatusCode (copy r other) = enhancedStatusCode other
  ∧ message (copy r other) = message other
  ∧ (copy r other).command = r.command :=
  ⟨rfl, rfl, rfl, rfl, rfl, rfl⟩

/-- C9: building a bounce message leaves the causing reply unchanged,
and the result depends on the reply only through `reply.code` and
`reply.message`. -/
theorem C9_bounce_frame (env : Envelope) (r1 r2 : ReplyLine) (ho : Bool)
    (u : String) (enc : String → String) (hcode : r1.code = r2.code)
    (hmsg : message r1 = message r2) :
    (build_message env r1 ho u enc).2 = r1
  ∧ (build_message env r1 ho u enc).1 = (build_message env r2 ho u enc).1 := by
  constructor
  · rfl
  · simp only [build_message, get_substitution_table, hcode, hmsg]

theorem C9_bounce_frame_witness :
    (build_message ⟨"s@example.com", ["a@example.org"], "H: v\r\n", "body"⟩
        { command := none
          code := some "550"
          esc := .override "3" "4"
          baseMessage := some "Stuff"
          newline_first := false } false "deadbeef" (fun s => s)).2 =
      { command := none
        code := some "550"
        esc := .override "3" "4"
        baseMessage := some "Stuff"
        newline_first := false }
  ∧ (build_message ⟨"s@example.com", ["a@example.org"], "H: v\r\n", "body"⟩
        { command := none
          code := some "550"
          esc := .override "3" "4"
          baseMessage := some "Stuff"
          newline_first := false } false "deadbeef" (fun s => s)).1 =
    (build_message ⟨"s@example.com", ["a@example.org"], "H: v\r\n", "body"⟩
        { command := some "RCPT"
          code := some "550"
          esc := .override "3" "4"
          baseMessage := some "Stuff"
          newline_first := true } false "deadbeef" (fun s => s)).1 :=
  C9_bounce_frame ⟨"s@example.com", ["a@example.org"], "H: v\r\n", "body"⟩
    { command := none
      code := some "550"
      esc := .override "3" "4"
      baseMessage := some "Stuff"
      newline_first := false }
    { command := some "RCPT"
      code := some "550"
      esc := .override "3" "4"
      baseMessage := some "Stuff"
      newline_first := true } false "deadbeef" (fun s => s) rfl rfl

/-- C10: the verifier class generated from a dictionary: with `u` the
(optionally lower-cased) authcid, `verify_secret` returns `u` exactly
when `d u` equals the secret and raises `CredentialsInvalidError` on a
missing key or a mismatch; `get_secret` is `None` when `only_verify` is
set and otherwise returns `(d u, u)` or raises on a missing key. -/
theorem C10_auth_dict (d : String → Option String)
    (lower_case only_verify : Bool) (authcid secret : String) :
    (d (authUsername lower_case authcid) = some secret →
      (build_auth_from_dict d lower_case only_verify).verify_secret
        authcid secret = .ok (authUsername lower_case authcid))
  ∧ (d (authUsername lower_case authcid) = none →
      (build_auth_from_dict d lower_case only_verify).verify_secret
        authcid secret = .error .credentialsInvalid)
  ∧ (∀ s, d (authUsername lower_case authcid) = some s → s ≠ secret →
      (build_auth_from_dict d lower_case only_verify).verify_secret
        authcid secret = .error .credentialsInvalid)
  ∧ (only_verify = true →
      (build_auth_from_dict d lower_case only_verify).get_secret = none)
  ∧ (only_verify = false → ∃ g,
      (build_auth_from_dict d lower_case only_verify).get_secret = some g
      ∧ (∀ s, d (authUsername lower_case authcid) = some s →
          g authcid = .ok (s, authUsername lower_case authcid))
      ∧ (d (authUsername lower_case authcid) = none →
          g authcid = .error .credentialsInvalid)) := by
  refine ⟨fun h => ?_, fun h => ?_, fun s hs hne => ?_, fun h => ?_,
    fun h => ?_⟩
  · simp [build_auth_from_dict, h]
  · simp [build_auth_from_dict, h]
  · simp [build_auth_from_dict, hs, hne]
  · simp [build_auth_from_dict, h]
  · subst h
    refine ⟨_, rfl, fun s hs => ?_, fun hn => ?_⟩
    · simp [hs]
    · simp [hn]

theorem C10_auth_dict_witness :
    ((build_auth_from_dict
        (fun s => if s = "alice" then some "sesame" else none) false
        false).verify_secret "alice" "sesame" =
      .ok (authUsername false "alice"))
  ∧ ((build_auth_from_dict
        (fun s => if s = "alice" then some "sesame" else none) false
        false).verify_secret "bob" "sesame" =
      .error .credentialsInvalid) :=
  ⟨(C10_auth_dict (fun s => if s = "alice" then some "sesame" else none)
      false false "alice" "sesame").1 (by decide),
   (C10_auth_dict (fun s => if s = "alice" then some "sesame" else none)
      false false "bob" "sesame").2.1 (by decide)⟩

end Slimta
